import Mathlib

set_option maxRecDepth 8000

/-!
Verification development for the upload ingestion core of the repository:
the encoding resolver (read_file_content) and the tabular materializer
(upload_file) from backend/app/api/v1/routers/upload.py.

Byte buffers, decoded text and file names are embedded as lists of natural
numbers (byte values, respectively Unicode code points).  The statistical
detector (chardet) is an external heuristic and is passed in as an abstract
guess, exactly the capability interface the code consumes its result
through.  The Python library calls the router makes (bytes.decode,
str.splitlines, str.endswith, pandas.read_csv) are embedded from the
documented behavior of those libraries on the fragment the router
exercises.
-/

/-- Converts a Lean string literal to the list of its Unicode code points.
Used only to write concrete text inputs compactly. -/
def cpsOf (s : String) : List Nat :=
  s.data.map Char.toNat

/-! ## UTF-8 codec, embedded from the strict utf-8 codec used by
bytes.decode in Python: rejects lone or misplaced continuation bytes,
overlong forms, surrogate code points and code points above 0x10FFFF. -/

/-- Decodes one UTF-8 scalar from the front of a byte list, returning the
code point and the remaining bytes, or none when the front is not a valid
UTF-8 sequence. -/
def utf8DecodeStep : List Nat → Option (Nat × List Nat)
  | [] => none
  | b :: rest =>
    if b < 128 then some (b, rest)
    else if b < 192 then none
    else if b < 224 then
      match rest with
      | b1 :: r =>
        if 128 ≤ b1 ∧ b1 < 192 then
          if 128 ≤ (b - 192) * 64 + (b1 - 128) then
            some ((b - 192) * 64 + (b1 - 128), r)
          else none
        else none
      | [] => none
    else if b < 240 then
      match rest with
      | b1 :: b2 :: r =>
        if (128 ≤ b1 ∧ b1 < 192) ∧ (128 ≤ b2 ∧ b2 < 192) then
          if 2048 ≤ (b - 224) * 4096 + (b1 - 128) * 64 + (b2 - 128) ∧
              ¬ (55296 ≤ (b - 224) * 4096 + (b1 - 128) * 64 + (b2 - 128) ∧
                 (b - 224) * 4096 + (b1 - 128) * 64 + (b2 - 128) < 57344) then
            some ((b - 224) * 4096 + (b1 - 128) * 64 + (b2 - 128), r)
          else none
        else none
      | _ => none
    else if b < 248 then
      match rest with
      | b1 :: b2 :: b3 :: r =>
        if (128 ≤ b1 ∧ b1 < 192) ∧ (128 ≤ b2 ∧ b2 < 192) ∧ (128 ≤ b3 ∧ b3 < 192) then
          if 65536 ≤ (b - 240) * 262144 + (b1 - 128) * 4096 + (b2 - 128) * 64 + (b3 - 128) ∧
              (b - 240) * 262144 + (b1 - 128) * 4096 + (b2 - 128) * 64 + (b3 - 128) ≤ 1114111 then
            some ((b - 240) * 262144 + (b1 - 128) * 4096 + (b2 - 128) * 64 + (b3 - 128), r)
          else none
        else none
      | _ => none
    else none

/-- Fuel-indexed UTF-8 decoding loop; one unit of fuel is spent for each
decoded scalar, and each scalar consumes at least one byte, so fuel equal
to the byte count always suffices. -/
def utf8DecodeFuel : Nat → List Nat → Option (List Nat)
  | _, [] => some []
  | 0, _ :: _ => none
  | f + 1, b :: t =>
    match utf8DecodeStep (b :: t) with
    | some (c, rest) => (utf8DecodeFuel f rest).map (fun l => c :: l)
    | none => none

/-- Decodes a byte list as strict UTF-8 into its code points, or none on
any invalid sequence, matching bytes.decode with the utf-8 codec. -/
def utf8Decode (bs : List Nat) : Option (List Nat) :=
  utf8DecodeFuel bs.length bs

/-- Encodes one Unicode scalar value as its UTF-8 byte sequence. -/
def utf8EncodeChar (c : Nat) : List Nat :=
  if c < 128 then [c]
  else if c < 2048 then [192 + c / 64, 128 + c % 64]
  else if c < 65536 then [224 + c / 4096, 128 + (c / 64) % 64, 128 + c % 64]
  else [240 + c / 262144, 128 + (c / 4096) % 64, 128 + (c / 64) % 64, 128 + c % 64]

/-- Encodes a code point list as UTF-8 bytes, matching str.encode with the
utf-8 codec on the scalars a successful decode can produce. -/
def utf8Encode : List Nat → List Nat
  | [] => []
  | c :: rest => utf8EncodeChar c ++ utf8Encode rest

theorem utf8EncodeChar_one {c : Nat} (h : c < 128) : utf8EncodeChar c = [c] := by
  simp [utf8EncodeChar, h]

theorem utf8EncodeChar_two {c : Nat} (h1 : 128 ≤ c) (h2 : c < 2048) :
    utf8EncodeChar c = [192 + c / 64, 128 + c % 64] := by
  have hn1 : ¬ c < 128 := by omega
  simp [utf8EncodeChar, hn1, h2]

theorem utf8EncodeChar_three {c : Nat} (h1 : 2048 ≤ c) (h2 : c < 65536) :
    utf8EncodeChar c = [224 + c / 4096, 128 + (c / 64) % 64, 128 + c % 64] := by
  have hn1 : ¬ c < 128 := by omega
  have hn2 : ¬ c < 2048 := by omega
  simp [utf8EncodeChar, hn1, hn2, h2]

theorem utf8EncodeChar_four {c : Nat} (h1 : 65536 ≤ c) :
    utf8EncodeChar c =
      [240 + c / 262144, 128 + (c / 4096) % 64, 128 + (c / 64) % 64, 128 + c % 64] := by
  have hn1 : ¬ c < 128 := by omega
  have hn2 : ¬ c < 2048 := by omega
  have hn3 : ¬ c < 65536 := by omega
  simp [utf8EncodeChar, hn1, hn2, hn3]

theorem utf8DecodeStep_encodeChar {bs : List Nat} {c : Nat} {rest : List Nat}
    (h : utf8DecodeStep bs = some (c, rest)) : utf8EncodeChar c ++ rest = bs := by
  match bs with
  | [] => simp [utf8DecodeStep] at h
  | b :: t =>
    simp only [utf8DecodeStep] at h
    repeat' split at h
    all_goals first
      | (simp at h
         done)
      | (injection h with h
         injection h with h1 h2
         subst h1
         subst h2
         first
           | rw [utf8EncodeChar_one (by omega)]
           | rw [utf8EncodeChar_two (by omega) (by omega)]
           | rw [utf8EncodeChar_three (by omega) (by omega)]
           | rw [utf8EncodeChar_four (by omega)]
         simp only [List.cons_append, List.nil_append, List.cons.injEq, and_true] <;>
           first
             | rfl
             | omega)

theorem utf8DecodeFuel_encode :
    ∀ (f : Nat) (bs cs : List Nat), utf8DecodeFuel f bs = some cs → utf8Encode cs = bs := by
  intro f
  induction f with
  | zero =>
    intro bs cs h
    match bs with
    | [] =>
      simp [utf8DecodeFuel] at h
      subst h
      rfl
    | b :: t => simp [utf8DecodeFuel] at h
  | succ f ih =>
    intro bs cs h
    match bs with
    | [] =>
      simp [utf8DecodeFuel] at h
      subst h
      rfl
    | b :: t =>
      unfold utf8DecodeFuel at h
      cases hstep : utf8DecodeStep (b :: t) with
      | none => rw [hstep] at h; simp at h
      | some cr =>
        obtain ⟨c, rest⟩ := cr
        rw [hstep] at h
        simp only [Option.map_eq_some'] at h
        obtain ⟨l, hl, hcs⟩ := h
        subst hcs
        have henc := utf8DecodeStep_encodeChar hstep
        calc utf8Encode (c :: l) = utf8EncodeChar c ++ utf8Encode l := rfl
          _ = utf8EncodeChar c ++ rest := by rw [ih rest l hl]
          _ = b :: t := henc

/-- Round trip of the embedded UTF-8 codec: any byte list the strict
decoder accepts is reproduced exactly by re-encoding the decoded code
points. -/
theorem utf8Decode_roundtrip {bs cs : List Nat} (h : utf8Decode bs = some cs) :
    utf8Encode cs = bs :=
  utf8DecodeFuel_encode bs.length bs cs h

/-! ## Other codecs the resolver can reach, embedded from the Python
codec registry entries the router exercises: ascii, iso-8859-1 (latin-1)
and windows-1252 (cp1252).  The registry itself is far larger; the four
names below are the fragment the claims and the fixed fallback list touch,
every other name is treated as unrecognized. -/

/-- Decodes a byte list under the ascii codec: bytes below 128 map to the
same code point, any other byte is a decode error. -/
def asciiDecode : List Nat → Option (List Nat)
  | [] => some []
  | b :: rest =>
    if b < 128 then (asciiDecode rest).map (fun l => b :: l) else none

/-- Decodes a byte list under iso-8859-1: every byte value maps directly
to the code point of the same number, so decoding is total. -/
def latin1Decode (bs : List Nat) : List Nat :=
  bs

/-- Maps one byte from the cp1252 upper control range 128..159 to its code
point, or none for the five bytes that are undefined in windows-1252. -/
def cp1252High : Nat → Option Nat
  | 128 => some 8364
  | 129 => none
  | 130 => some 8218
  | 131 => some 402
  | 132 => some 8222
  | 133 => some 8230
  | 134 => some 8224
  | 135 => some 8225
  | 136 => some 710
  | 137 => some 8240
  | 138 => some 352
  | 139 => some 8249
  | 140 => some 338
  | 141 => none
  | 142 => some 381
  | 143 => none
  | 144 => none
  | 145 => some 8216
  | 146 => some 8217
  | 147 => some 8220
  | 148 => some 8221
  | 149 => some 8226
  | 150 => some 8211
  | 151 => some 8212
  | 152 => some 732
  | 153 => some 8482
  | 154 => some 353
  | 155 => some 8250
  | 156 => some 339
  | 157 => none
  | 158 => some 382
  | 159 => some 376
  | _ => none

/-- Maps one byte under windows-1252: identity outside 128..159, table
lookup inside it, none for the five undefined bytes. -/
def cp1252Byte (b : Nat) : Option Nat :=
  if b < 128 then some b
  else if b < 160 then cp1252High b
  else some b

/-- Decodes a byte list under windows-1252, failing on any byte that has
no character assigned in cp1252. -/
def cp1252Decode : List Nat → Option (List Nat)
  | [] => some []
  | b :: rest =>
    match cp1252Byte b with
    | some c => (cp1252Decode rest).map (fun l => c :: l)
    | none => none

/-! ## Encoding resolver, embedded from read_file_content in
backend/app/api/v1/routers/upload.py. -/

/-- Outcome of one bytes.decode call in Python terms: a decoded text, a
UnicodeDecodeError (caught by the fallback loop), or a LookupError for an
unrecognized codec name (not caught by the fallback loop). -/
inductive DecodeOutcome
  | ok (text : List Nat)
  | decodeError
  | lookupError
deriving DecidableEq, Repr

/-- Encoding names the embedded codec registry recognizes; the fragment
of the Python registry the router and the claims exercise. -/
def recognizedEncodings : List String :=
  ["utf-8", "ascii", "iso-8859-1", "windows-1252"]

/-- Models one content_bytes.decode(enc) call of the router over the
embedded codec fragment. -/
def pyDecode (enc : String) (bs : List Nat) : DecodeOutcome :=
  if enc = "utf-8" then
    match utf8Decode bs with
    | some t => .ok t
    | none => .decodeError
  else if enc = "ascii" then
    match asciiDecode bs with
    | some t => .ok t
    | none => .decodeError
  else if enc = "iso-8859-1" then .ok (latin1Decode bs)
  else if enc = "windows-1252" then
    match cp1252Decode bs with
    | some t => .ok t
    | none => .decodeError
  else .lookupError

/-- Fixed fallback list of read_file_content. -/
def fallbackEncodings : List String :=
  ["utf-8", "iso-8859-1", "windows-1252"]

/-- Builds the candidate list of read_file_content from the detector
guess: a null guess defaults to utf-8; a guess not already among the
fallbacks is inserted at position 0. -/
def buildCandidates (guess : Option String) : List String :=
  let encoding := match guess with
    | some g => g
    | none => "utf-8"
  if encoding ∈ fallbackEncodings then fallbackEncodings
  else encoding :: fallbackEncodings

/-- Python-level failures that escape the router logic: an HTTPException
carrying a status and detail, or a LookupError from an unrecognized codec
name (its Python message is "unknown encoding: " followed by the name). -/
inductive PyErr
  | httpExc (status : Nat) (detail : String)
  | lookupErr (enc : String)
deriving DecidableEq, Repr

/-- Detail string of the HTTPException read_file_content raises when the
fallback loop exhausts all candidates. -/
def decodeExhaustedDetail : String :=
  "Could not decode the file with any of the supported encodings."

/-- Fallback loop of read_file_content: try each candidate in order,
stopping at the first success; a UnicodeDecodeError moves on to the next
candidate, a LookupError escapes the loop (the except clause catches only
UnicodeDecodeError and TypeError); none means the loop ran out. -/
def decodeLoop (bs : List Nat) : List String → Except PyErr (Option (List Nat × String))
  | [] => .ok none
  | enc :: rest =>
    match pyDecode enc bs with
    | .ok t => .ok (some (t, enc))
    | .decodeError => decodeLoop bs rest
    | .lookupError => .error (.lookupErr enc)

/-- Embeds read_file_content: build the candidate list from the detector
guess, run the fallback loop, and raise HTTPException 400 when every
candidate failed with a decode error. -/
def read_file_content (guess : Option String) (bs : List Nat) :
    Except PyErr (List Nat × String) :=
  match decodeLoop bs (buildCandidates guess) with
  | .error e => .error e
  | .ok (some r) => .ok r
  | .ok none => .error (.httpExc 400 decodeExhaustedDetail)

/-! ## Tabular materializer, embedded from upload_file in
backend/app/api/v1/routers/upload.py together with the Python and pandas
library behavior it leans on. -/

/-- Tests whether a code point is one of the line boundaries of the
Python str.splitlines method: besides line feed, carriage return and
their pair, Python also splits on vertical tab, form feed, the separator
controls 28..30, next line 133, and the Unicode line and paragraph
separators. -/
def isPyLineBoundary (c : Nat) : Bool :=
  c = 10 || c = 13 || c = 11 || c = 12 || c = 28 || c = 29 || c = 30 ||
    c = 133 || c = 8232 || c = 8233

/-- Splits a code point list at Python str.splitlines boundaries, keeping
lines unterminated, a carriage return plus line feed pair counting as one
boundary, and no trailing empty line for a trailing boundary. -/
def pySplitlines : List Nat → List (List Nat)
  | [] => []
  | 13 :: 10 :: rest => [] :: pySplitlines rest
  | c :: rest =>
    if isPyLineBoundary c then [] :: pySplitlines rest
    else
      match pySplitlines rest with
      | [] => [[c]]
      | l :: ls => (c :: l) :: ls

/-- Models the str.endswith call of the router on code point lists: true
exactly when the trailing code points of the name equal the given ending;
the comparison is exact, hence case sensitive. -/
def pyEndsWith (name ending : List Nat) : Bool :=
  decide (ending.length ≤ name.length) &&
    decide (name.drop (name.length - ending.length) = ending)

/-- Cell value of a materialized record, reflecting what pandas to_dict
produces for the router: a string kept verbatim, an inferred integer, or
a missing value. -/
inductive Cell
  | str (s : List Nat)
  | int (n : Int)
  | nan
deriving DecidableEq, Repr

/-- Tokenizer mode of the embedded CSV reader: inside an unquoted field,
inside a quoted field, or just after the closing quote of a field. -/
inductive CsvMode
  | plain
  | quoted
  | postQuote
deriving DecidableEq, Repr

/-- Tokenizes CSV text into rows of raw fields following the standard CSV
rules pandas read_csv applies: comma delimits fields, a quote opening a
field starts a quoted field in which delimiters and newlines are literal,
a doubled quote inside quotes is a literal quote, and a quoted field still
open at the end of input is a parse error (EOF inside string). -/
def csvRun : List Nat → CsvMode → List Nat → List (List Nat) →
    List (List (List Nat)) → Except String (List (List (List Nat)))
  | [], .quoted, _, _, _ =>
    .error "Error tokenizing data. C error: EOF inside string starting at the last quoted field"
  | [], _, field, row, rows => .ok (rows ++ [row ++ [field]])
  | 34 :: 34 :: rest, .quoted, field, row, rows => csvRun rest .quoted (field ++ [34]) row rows
  | 34 :: rest, .quoted, field, row, rows => csvRun rest .postQuote field row rows
  | c :: rest, .quoted, field, row, rows => csvRun rest .quoted (field ++ [c]) row rows
  | 44 :: rest, _, field, row, rows => csvRun rest .plain [] (row ++ [field]) rows
  | 13 :: 10 :: rest, _, field, row, rows => csvRun rest .plain [] [] (rows ++ [row ++ [field]])
  | 13 :: rest, _, field, row, rows => csvRun rest .plain [] [] (rows ++ [row ++ [field]])
  | 10 :: rest, _, field, row, rows => csvRun rest .plain [] [] (rows ++ [row ++ [field]])
  | 34 :: rest, .plain, [], row, rows => csvRun rest .quoted [] row rows
  | c :: rest, mode, field, row, rows => csvRun rest mode (field ++ [c]) row rows

/-- Tests whether a code point is a decimal digit. -/
def isDigitCp (c : Nat) : Bool :=
  48 ≤ c && c ≤ 57

/-- Tests whether a raw field is an integer literal, optionally signed,
the shape pandas type inference converts a whole column of to integers. -/
def isIntLit : List Nat → Bool
  | 45 :: rest => rest ≠ [] && rest.all isDigitCp
  | s => s ≠ [] && s.all isDigitCp

/-- Numeric value of an unsigned digit string. -/
def digitsToNat (s : List Nat) : Nat :=
  s.foldl (fun a c => a * 10 + (c - 48)) 0

/-- Integer value of an integer literal field. -/
def intLitVal : List Nat → Int
  | 45 :: rest => - (digitsToNat rest : Int)
  | s => (digitsToNat s : Int)

/-- Converts a raw field to a cell when its column is not inferred to be
integral: empty fields become missing values as in pandas, any other
field stays a string. -/
def cellOfField (f : List Nat) : Cell :=
  if f = [] then .nan else .str f

/-- Pads a data row with empty fields up to the header width, the pandas
behavior for rows with missing trailing fields. -/
def padTo (w : Nat) (r : List (List Nat)) : List (List Nat) :=
  r ++ List.replicate (w - r.length) []

/-- Tests whether every padded data row holds an integer literal in the
given column, the condition under which pandas infers an integer dtype
for it. -/
def colAllInt (rows : List (List (List Nat))) (j : Nat) : Bool :=
  rows.all (fun r => isIntLit (r.getD j []))

/-- Converts one raw field of a column to its cell, integral column or
not. -/
def inferCell (allInt : Bool) (f : List Nat) : Cell :=
  if allInt then .int (intLitVal f) else cellOfField f

/-- Embeds the pandas read_csv plus to_dict records path of the router on
the fragment it exercises: empty input raises EmptyDataError, the
tokenizer raises on malformed quoting, blank lines are skipped, the first
row is the header, a data row wider than the header is a tokenizing
error, narrower rows are padded with missing values, and a column whose
fields are all integer literals is converted to integers (pandas dtype
inference); every other field stays the verbatim string. -/
def pdReadCsv (content : List Nat) : Except String (List (List (List Nat × Cell))) :=
  if content.isEmpty then .error "No columns to parse from file"
  else
    match csvRun content .plain [] [] [] with
    | .error e => .error e
    | .ok rawRows =>
      match rawRows.filter (fun r => r ≠ [[]]) with
      | [] => .error "No columns to parse from file"
      | header :: dataRows =>
        if dataRows.any (fun r => header.length < r.length) then
          .error "Error tokenizing data. C error: expected fewer fields than seen in a row"
        else
          let padded := dataRows.map (padTo header.length)
          .ok (padded.map (fun r =>
            (List.range header.length).map (fun j =>
              (header.getD j [], inferCell (colAllInt padded j) (r.getD j [])))))

/-- Body of a JSON response of the router: either the success payload
with file name, detected encoding and data, or the error payload with the
error message, together with its HTTP status. -/
inductive UploadData
  | records (rs : List (List (List Nat × Cell)))
  | lines (ls : List (List Nat))
deriving DecidableEq, Repr

/-- Result of one upload request as the router serializes it: a success
response (status 200) or an error object response carrying its status. -/
inductive UploadResult
  | success (filename : List Nat) (encoding : String) (data : UploadData)
  | errorBody (status : Nat) (message : String)
deriving DecidableEq, Repr

/-- Message str(e) produces for the escaped Python errors the outer
except clause of upload_file can see. -/
def pyErrStr : PyErr → String
  | .lookupErr e => "unknown encoding: " ++ e
  | .httpExc _ d => d

/-- Embeds upload_file: resolve the bytes, then for a file name ending in
.csv run the pandas path and otherwise split into lines; an HTTPException
maps to an error body with its own status, every other escaped error maps
to a 500 error body with the unexpected-error message. -/
def upload_file (filename : List Nat) (guess : Option String) (bs : List Nat) :
    UploadResult :=
  match read_file_content guess bs with
  | .error (.httpExc status detail) => .errorBody status detail
  | .error e => .errorBody 500 ("An unexpected error occurred: " ++ pyErrStr e)
  | .ok (content, encoding) =>
    if pyEndsWith filename (cpsOf ".csv") then
      match pdReadCsv content with
      | .error msg => .errorBody 500 ("An unexpected error occurred: " ++ msg)
      | .ok recs => .success filename encoding (.records recs)
    else .success filename encoding (.lines (pySplitlines content))

/-- Follows the words of the spec for the non tabular branch of the
materializer, for comparison with the embedded pySplitlines: split the
text into lines exactly at universal newline boundaries, that is line
feed, carriage return, or a carriage return plus line feed pair. -/
def universalSplit : List Nat → List (List Nat)
  | [] => []
  | 13 :: 10 :: rest => [] :: universalSplit rest
  | c :: rest =>
    if c = 10 || c = 13 then [] :: universalSplit rest
    else
      match universalSplit rest with
      | [] => [[c]]
      | l :: ls => (c :: l) :: ls

/-! ## Helper lemmas about the fallback loop. -/

theorem pyDecode_latin1_ok (bs : List Nat) : pyDecode "iso-8859-1" bs = .ok (latin1Decode bs) := by
  simp [pyDecode]

theorem recognized_no_lookup {e : String} (h : e ∈ recognizedEncodings) (bs : List Nat) :
    pyDecode e bs ≠ .lookupError := by
  simp only [recognizedEncodings, List.mem_cons, List.not_mem_nil, or_false] at h
  rcases h with rfl | rfl | rfl | rfl
  · cases h2 : utf8Decode bs <;> simp [pyDecode, h2]
  · cases h2 : asciiDecode bs <;> simp [pyDecode, h2]
  · simp [pyDecode]
  · cases h2 : cp1252Decode bs <;> simp [pyDecode, h2]

theorem unrecognized_lookup {e : String} (h : e ∉ recognizedEncodings) (bs : List Nat) :
    pyDecode e bs = .lookupError := by
  simp only [recognizedEncodings, List.mem_cons, List.not_mem_nil, or_false, not_or] at h
  obtain ⟨h1, h2, h3, h4⟩ := h
  simp [pyDecode, h1, h2, h3, h4]

theorem buildCandidates_none : buildCandidates none = fallbackEncodings := by
  show (if "utf-8" ∈ fallbackEncodings then fallbackEncodings
    else "utf-8" :: fallbackEncodings) = fallbackEncodings
  rw [if_pos (by simp [fallbackEncodings])]

theorem buildCandidates_some_mem {g : String} (hmem : g ∈ fallbackEncodings) :
    buildCandidates (some g) = fallbackEncodings := by
  show (if g ∈ fallbackEncodings then fallbackEncodings
    else g :: fallbackEncodings) = fallbackEncodings
  rw [if_pos hmem]

theorem buildCandidates_some_not {g : String} (hmem : g ∉ fallbackEncodings) :
    buildCandidates (some g) = g :: fallbackEncodings := by
  show (if g ∈ fallbackEncodings then fallbackEncodings
    else g :: fallbackEncodings) = g :: fallbackEncodings
  rw [if_neg hmem]

theorem iso_mem_buildCandidates (guess : Option String) :
    "iso-8859-1" ∈ buildCandidates guess := by
  cases guess with
  | none => rw [buildCandidates_none]; simp [fallbackEncodings]
  | some g =>
    by_cases hmem : g ∈ fallbackEncodings
    · rw [buildCandidates_some_mem hmem]; simp [fallbackEncodings]
    · rw [buildCandidates_some_not hmem]; simp [fallbackEncodings]

theorem decodeLoop_total {bs : List Nat} :
    ∀ cands : List String, "iso-8859-1" ∈ cands →
      (∀ e ∈ cands, pyDecode e bs ≠ .lookupError) →
      ∃ t enc, decodeLoop bs cands = .ok (some (t, enc)) := by
  intro cands
  induction cands with
  | nil => intro h; simp at h
  | cons e rest ih =>
    intro hmem hrec
    cases hpd : pyDecode e bs with
    | ok t => exact ⟨t, e, by simp [decodeLoop, hpd]⟩
    | decodeError =>
      rcases List.mem_cons.mp hmem with rfl | hmem2
      · rw [pyDecode_latin1_ok] at hpd
        exact absurd hpd (by simp)
      · obtain ⟨t, enc, hres⟩ := ih hmem2 (fun x hx => hrec x (List.mem_cons_of_mem _ hx))
        exact ⟨t, enc, by simp [decodeLoop, hpd, hres]⟩
    | lookupError => exact absurd hpd (hrec e (List.mem_cons_self _ _))

theorem decodeLoop_ne_none {bs : List Nat} :
    ∀ cands : List String, "iso-8859-1" ∈ cands → decodeLoop bs cands ≠ .ok none := by
  intro cands
  induction cands with
  | nil => intro h; simp at h
  | cons e rest ih =>
    intro hmem
    cases hpd : pyDecode e bs with
    | ok t => simp [decodeLoop, hpd]
    | decodeError =>
      rcases List.mem_cons.mp hmem with rfl | hmem2
      · rw [pyDecode_latin1_ok] at hpd
        exact absurd hpd (by simp)
      · simp only [decodeLoop, hpd]
        exact ih hmem2
    | lookupError => simp [decodeLoop, hpd]

theorem decodeLoop_error_lookup {bs : List Nat} :
    ∀ (cands : List String) (e : PyErr), decodeLoop bs cands = .error e →
      ∃ enc, e = .lookupErr enc := by
  intro cands
  induction cands with
  | nil => intro e h; simp [decodeLoop] at h
  | cons c rest ih =>
    intro e h
    cases hpd : pyDecode c bs with
    | ok t => rw [decodeLoop, hpd] at h; simp at h
    | decodeError => rw [decodeLoop, hpd] at h; exact ih e h
    | lookupError =>
      rw [decodeLoop, hpd] at h
      injection h with h
      exact ⟨c, h.symm⟩

/-! ## Claims. -/

/-- C1: for every byte buffer whose bytes form a valid utf-8 sequence,
when the detector guess is utf-8 or absent the resolver returns encoding
utf-8 together with text whose utf-8 re-encoding is exactly the original
buffer; utf-8 is the first candidate of the priority order and it
succeeds, so it is the chosen encoding. -/
theorem C1_utf8_first_roundtrip (bs cs : List Nat) (guess : Option String)
    (hdec : utf8Decode bs = some cs) (hg : guess = none ∨ guess = some "utf-8") :
    read_file_content guess bs = .ok (cs, "utf-8") ∧ utf8Encode cs = bs := by
  have hcand : buildCandidates guess = fallbackEncodings := by
    rcases hg with rfl | rfl
    · exact buildCandidates_none
    · exact buildCandidates_some_mem (by simp [fallbackEncodings])
  refine ⟨?_, utf8Decode_roundtrip hdec⟩
  have hpd : pyDecode "utf-8" bs = DecodeOutcome.ok cs := by
    unfold pyDecode
    rw [if_pos rfl, hdec]
  have hloop : decodeLoop bs fallbackEncodings = Except.ok (some (cs, "utf-8")) := by
    show (match pyDecode "utf-8" bs with
      | DecodeOutcome.ok t => Except.ok (some (t, "utf-8"))
      | DecodeOutcome.decodeError => decodeLoop bs ["iso-8859-1", "windows-1252"]
      | DecodeOutcome.lookupError => Except.error (PyErr.lookupErr "utf-8")) =
      Except.ok (some (cs, "utf-8"))
    rw [hpd]
  unfold read_file_content
  rw [hcand, hloop]

/-- C1 witness at the two byte buffer of the text h plus e acute. -/
theorem C1_witness :
    utf8Decode [104, 195, 169] = some [104, 233] ∧
    (read_file_content none [104, 195, 169] = .ok ([104, 233], "utf-8") ∧
      utf8Encode [104, 233] = [104, 195, 169]) :=
  ⟨by decide, C1_utf8_first_roundtrip [104, 195, 169] [104, 233] none (by decide) (Or.inl rfl)⟩

/-- C2: for every byte buffer, when every candidate in the built list is
a recognized encoding name, the decode exhaustion branch is unreachable:
the resolver returns a text and encoding pair (iso-8859-1 is in every
candidate list and decodes every buffer). -/
theorem C2_recognized_never_exhausted (guess : Option String) (bs : List Nat)
    (hrec : ∀ e ∈ buildCandidates guess, e ∈ recognizedEncodings) :
    ∃ t enc, read_file_content guess bs = .ok (t, enc) := by
  obtain ⟨t, enc, hres⟩ := decodeLoop_total (buildCandidates guess)
    (iso_mem_buildCandidates guess) (fun e he => recognized_no_lookup (hrec e he) bs)
  refine ⟨t, enc, ?_⟩
  unfold read_file_content
  rw [hres]

/-- C2 witness at a one byte buffer with an ascii detector guess. -/
theorem C2_witness :
    (∀ e ∈ buildCandidates (some "ascii"), e ∈ recognizedEncodings) ∧
    ∃ t enc, read_file_content (some "ascii") [104] = .ok (t, enc) :=
  ⟨by decide, C2_recognized_never_exhausted (some "ascii") [104] (by decide)⟩

/-- C3: the candidate list is exactly the fixed fallback list when the
guess is null or already one of its three names, and otherwise the guess
followed by the fixed list; it never holds duplicates, and a guess
outside the fixed list occupies the first position. -/
theorem C3_candidate_list_shape (guess : Option String) :
    (buildCandidates guess).Nodup ∧
    ((guess = none ∨ ∃ g, guess = some g ∧ g ∈ fallbackEncodings) →
      buildCandidates guess = fallbackEncodings) ∧
    (∀ g, guess = some g → g ∉ fallbackEncodings →
      buildCandidates guess = g :: fallbackEncodings ∧
        (buildCandidates guess).head? = some g) := by
  cases guess with
  | none =>
    refine ⟨?_, fun _ => buildCandidates_none, ?_⟩
    · rw [buildCandidates_none]; decide
    · intro g hg
      exact absurd hg (by simp)
  | some g =>
    by_cases hmem : g ∈ fallbackEncodings
    · refine ⟨?_, fun _ => buildCandidates_some_mem hmem, ?_⟩
      · rw [buildCandidates_some_mem hmem]; decide
      · intro g2 he hnot
        injection he with he
        subst he
        exact absurd hmem hnot
    · refine ⟨?_, ?_, ?_⟩
      · rw [buildCandidates_some_not hmem]
        exact List.nodup_cons.mpr ⟨hmem, by decide⟩
      · intro hcase
        rcases hcase with h | ⟨g2, he, hg2⟩
        · exact absurd h (by simp)
        · injection he with he
          subst he
          exact absurd hg2 hmem
      · intro g2 he _
        injection he with he
        subst he
        exact ⟨buildCandidates_some_not hmem, by rw [buildCandidates_some_not hmem]; rfl⟩

/-- C3 witness with a guess outside the fixed list. -/
theorem C3_witness :
    (buildCandidates (some "ascii")).Nodup ∧
    buildCandidates (some "ascii") = "ascii" :: fallbackEncodings :=
  ⟨(C3_candidate_list_shape (some "ascii")).1,
    ((C3_candidate_list_shape (some "ascii")).2.2 "ascii" rfl (by decide)).1⟩

/-- C4 counterexample: with an unrecognized detector guess the router
does not surface the decode exhaustion error as an HTTP 400 error body;
the LookupError escapes the per candidate handler and is surfaced as an
HTTP 500 error body instead. -/
theorem C4_counterexample :
    upload_file (cpsOf "data.csv") (some "x-mystery") [72, 105] =
      UploadResult.errorBody 500 "An unexpected error occurred: unknown encoding: x-mystery" ∧
    upload_file (cpsOf "data.csv") (some "x-mystery") [72, 105] ≠
      UploadResult.errorBody 400 decodeExhaustedDetail := by
  constructor
  · rfl
  · decide

/-- C4 amended: the candidate list always holds iso-8859-1, which decodes
every buffer, so the resolver never raises the decode exhaustion
HTTPException (and hence never surfaces its 400 error body); a candidate
name that is not a recognized encoding instead raises a LookupError that
the per candidate handler does not catch, surfaced by the router as an
HTTP 500 error body. -/
theorem C4_amended_exhaustion_unreachable (filename : List Nat) (guess : Option String)
    (bs : List Nat) :
    read_file_content guess bs ≠ .error (.httpExc 400 decodeExhaustedDetail) ∧
    (∀ g, guess = some g → g ∉ recognizedEncodings →
      upload_file filename guess bs =
        UploadResult.errorBody 500
          ("An unexpected error occurred: " ++ ("unknown encoding: " ++ g))) := by
  constructor
  · intro hcontra
    unfold read_file_content at hcontra
    cases hres : decodeLoop bs (buildCandidates guess) with
    | error e =>
      rw [hres] at hcontra
      obtain ⟨enc, rfl⟩ := decodeLoop_error_lookup (buildCandidates guess) e hres
      simp at hcontra
    | ok o =>
      cases o with
      | none => exact decodeLoop_ne_none (buildCandidates guess) (iso_mem_buildCandidates guess) hres
      | some r => rw [hres] at hcontra; simp at hcontra
  · intro g hg hnrec
    subst hg
    have hnf : g ∉ fallbackEncodings := by
      intro hmem
      apply hnrec
      simp only [fallbackEncodings, List.mem_cons, List.not_mem_nil, or_false] at hmem
      rcases hmem with rfl | rfl | rfl <;> decide
    have hpd : pyDecode g bs = DecodeOutcome.lookupError := unrecognized_lookup hnrec bs
    have hloop : decodeLoop bs (buildCandidates (some g)) = Except.error (PyErr.lookupErr g) := by
      rw [buildCandidates_some_not hnf]
      show (match pyDecode g bs with
        | DecodeOutcome.ok t => Except.ok (some (t, g))
        | DecodeOutcome.decodeError => decodeLoop bs fallbackEncodings
        | DecodeOutcome.lookupError => Except.error (PyErr.lookupErr g)) =
        Except.error (PyErr.lookupErr g)
      rw [hpd]
    have hread : read_file_content (some g) bs = Except.error (PyErr.lookupErr g) := by
      unfold read_file_content
      rw [hloop]
    unfold upload_file
    rw [hread]
    rfl

/-- C4 amended witness at a concrete unrecognized guess. -/
theorem C4_amended_witness :
    read_file_content (some "x-enigma") [104] ≠ .error (.httpExc 400 decodeExhaustedDetail) ∧
    (some "x-enigma" = some "x-enigma" ∧ "x-enigma" ∉ recognizedEncodings ∧
      upload_file (cpsOf "a.txt") (some "x-enigma") [104] =
        UploadResult.errorBody 500
          ("An unexpected error occurred: " ++ ("unknown encoding: " ++ "x-enigma"))) :=
  ⟨(C4_amended_exhaustion_unreachable (cpsOf "a.txt") (some "x-enigma") [104]).1,
    rfl, by decide,
    (C4_amended_exhaustion_unreachable (cpsOf "a.txt") (some "x-enigma") [104]).2
      "x-enigma" rfl (by decide)⟩

/-- C5 counterexample: materializing the csv text with header a,b,c and
rows 1,2,3 and 4,5,6 yields records whose cells are pandas inferred
integers, not the all string records the claim states. -/
theorem C5_counterexample :
    upload_file (cpsOf "data.csv") none (cpsOf "a,b,c\n1,2,3\n4,5,6") =
      UploadResult.success (cpsOf "data.csv") "utf-8" (UploadData.records
        [[(cpsOf "a", Cell.int 1), (cpsOf "b", Cell.int 2), (cpsOf "c", Cell.int 3)],
         [(cpsOf "a", Cell.int 4), (cpsOf "b", Cell.int 5), (cpsOf "c", Cell.int 6)]]) ∧
    upload_file (cpsOf "data.csv") none (cpsOf "a,b,c\n1,2,3\n4,5,6") ≠
      UploadResult.success (cpsOf "data.csv") "utf-8" (UploadData.records
        [[(cpsOf "a", Cell.str (cpsOf "1")), (cpsOf "b", Cell.str (cpsOf "2")),
            (cpsOf "c", Cell.str (cpsOf "3"))],
         [(cpsOf "a", Cell.str (cpsOf "4")), (cpsOf "b", Cell.str (cpsOf "5")),
            (cpsOf "c", Cell.str (cpsOf "6"))]]) := by
  constructor
  · rfl
  · decide

/-- C5 amended: materializing that csv text under a .csv file name yields
exactly the two records keyed by a, b, c in order, but with the cell
values as pandas inferred integers 1..6 (read_csv performs dtype
inference on integer columns, so the core does coerce cell values). -/
theorem C5_amended_int_records :
    upload_file (cpsOf "data.csv") none (cpsOf "a,b,c\n1,2,3\n4,5,6") =
      UploadResult.success (cpsOf "data.csv") "utf-8" (UploadData.records
        [[(cpsOf "a", Cell.int 1), (cpsOf "b", Cell.int 2), (cpsOf "c", Cell.int 3)],
         [(cpsOf "a", Cell.int 4), (cpsOf "b", Cell.int 5), (cpsOf "c", Cell.int 6)]]) := by
  rfl

/-- C6: for every decoded text the embedded CSV reader rejects as not
well formed (for instance the unterminated quote example of the spec),
materializing it under a file name ending in .csv fails with the parse
error, which the router surfaces in the error body of the response. -/
theorem C6_parse_error_surfaced (filename : List Nat) (guess : Option String)
    (bs content : List Nat) (enc : String) (e : String)
    (hread : read_file_content guess bs = .ok (content, enc))
    (hcsv : pyEndsWith filename (cpsOf ".csv") = true)
    (herr : pdReadCsv content = .error e) :
    upload_file filename guess bs =
      UploadResult.errorBody 500 ("An unexpected error occurred: " ++ e) := by
  unfold upload_file
  rw [hread]
  show (if pyEndsWith filename (cpsOf ".csv") = true then
      match pdReadCsv content with
      | Except.error msg => UploadResult.errorBody 500 ("An unexpected error occurred: " ++ msg)
      | Except.ok recs => UploadResult.success filename enc (UploadData.records recs)
    else UploadResult.success filename enc (UploadData.lines (pySplitlines content))) = _
  rw [if_pos hcsv, herr]

/-- C6 witness on the unterminated quote example of the spec. -/
theorem C6_witness :
    read_file_content none (cpsOf "a,b\n\"unterminated,1") =
      .ok (cpsOf "a,b\n\"unterminated,1", "utf-8") ∧
    pyEndsWith (cpsOf "t.csv") (cpsOf ".csv") = true ∧
    pdReadCsv (cpsOf "a,b\n\"unterminated,1") =
      .error "Error tokenizing data. C error: EOF inside string starting at the last quoted field" ∧
    upload_file (cpsOf "t.csv") none (cpsOf "a,b\n\"unterminated,1") =
      UploadResult.errorBody 500
        ("An unexpected error occurred: " ++
          "Error tokenizing data. C error: EOF inside string starting at the last quoted field") :=
  ⟨rfl, by decide, rfl,
    C6_parse_error_surfaced (cpsOf "t.csv") none (cpsOf "a,b\n\"unterminated,1")
      (cpsOf "a,b\n\"unterminated,1") "utf-8"
      "Error tokenizing data. C error: EOF inside string starting at the last quoted field"
      rfl (by decide) rfl⟩

/-- C7 counterexample: on the empty byte buffer the .csv path does not
succeed with an empty record sequence; the pandas empty data error is
surfaced as a 500 error body. -/
theorem C7_counterexample :
    upload_file (cpsOf "data.csv") none [] =
      UploadResult.errorBody 500 "An unexpected error occurred: No columns to parse from file" ∧
    upload_file (cpsOf "data.csv") none [] ≠
      UploadResult.success (cpsOf "data.csv") "utf-8" (UploadData.records []) := by
  constructor
  · rfl
  · decide

/-- C7 amended: the empty buffer decodes to the empty text with encoding
utf-8 (or the recognized detector guess when it is outside the fallback
list); a file name not ending in .csv then succeeds with an empty line
sequence, but a .csv file name fails with the pandas empty data error
surfaced as a 500 error body, not with an empty record sequence. -/
theorem C7_amended_empty_buffer (guess : Option String) (filename : List Nat)
    (hg : guess = none ∨ ∃ g, guess = some g ∧ g ∈ recognizedEncodings) :
    ∃ enc, read_file_content guess [] = .ok ([], enc) ∧
      (enc = "utf-8" ∨ guess = some enc) ∧
      (pyEndsWith filename (cpsOf ".csv") = false →
        upload_file filename guess [] = UploadResult.success filename enc (UploadData.lines [])) ∧
      (pyEndsWith filename (cpsOf ".csv") = true →
        upload_file filename guess [] =
          UploadResult.errorBody 500
            "An unexpected error occurred: No columns to parse from file") := by
  have main : ∀ enc : String, read_file_content guess [] = .ok ([], enc) →
      (pyEndsWith filename (cpsOf ".csv") = false →
        upload_file filename guess [] = UploadResult.success filename enc (UploadData.lines [])) ∧
      (pyEndsWith filename (cpsOf ".csv") = true →
        upload_file filename guess [] =
          UploadResult.errorBody 500
            "An unexpected error occurred: No columns to parse from file") := by
    intro enc hread
    constructor <;> intro hf <;> unfold upload_file <;> rw [hread]
    · show (if pyEndsWith filename (cpsOf ".csv") = true then
          match pdReadCsv [] with
          | Except.error msg =>
            UploadResult.errorBody 500 ("An unexpected error occurred: " ++ msg)
          | Except.ok recs => UploadResult.success filename enc (UploadData.records recs)
        else UploadResult.success filename enc (UploadData.lines (pySplitlines []))) = _
      rw [if_neg (by rw [hf]; simp)]
      rfl
    · show (if pyEndsWith filename (cpsOf ".csv") = true then
          match pdReadCsv [] with
          | Except.error msg =>
            UploadResult.errorBody 500 ("An unexpected error occurred: " ++ msg)
          | Except.ok recs => UploadResult.success filename enc (UploadData.records recs)
        else UploadResult.success filename enc (UploadData.lines (pySplitlines []))) = _
      rw [if_pos hf]
      rfl
  rcases hg with rfl | ⟨g, rfl, hmem⟩
  · exact ⟨"utf-8", rfl, Or.inl rfl, main "utf-8" rfl⟩
  · simp only [recognizedEncodings, List.mem_cons, List.not_mem_nil, or_false] at hmem
    rcases hmem with rfl | rfl | rfl | rfl
    · exact ⟨"utf-8", rfl, Or.inl rfl, main "utf-8" rfl⟩
    · exact ⟨"ascii", rfl, Or.inr rfl, main "ascii" rfl⟩
    · exact ⟨"utf-8", rfl, Or.inl rfl, main "utf-8" rfl⟩
    · exact ⟨"utf-8", rfl, Or.inl rfl, main "utf-8" rfl⟩

/-- C7 amended witness with no detector guess and a non tabular name. -/
theorem C7_amended_witness :
    (none = (none : Option String) ∨
      ∃ g, (none : Option String) = some g ∧ g ∈ recognizedEncodings) ∧
    ∃ enc, read_file_content none [] = .ok ([], enc) ∧
      (enc = "utf-8" ∨ (none : Option String) = some enc) ∧
      (pyEndsWith (cpsOf "x.txt") (cpsOf ".csv") = false →
        upload_file (cpsOf "x.txt") none [] =
          UploadResult.success (cpsOf "x.txt") enc (UploadData.lines [])) ∧
      (pyEndsWith (cpsOf "x.txt") (cpsOf ".csv") = true →
        upload_file (cpsOf "x.txt") none [] =
          UploadResult.errorBody 500
            "An unexpected error occurred: No columns to parse from file") :=
  ⟨Or.inl rfl, C7_amended_empty_buffer none (cpsOf "x.txt") (Or.inl rfl)⟩

/-- C8 counterexample: the materializer does not split exactly on
universal newline boundaries; a vertical tab (code point 11) is not a
universal newline, yet the router splits the text at it, so the text a,
vertical tab, b comes back as two lines where the claim demands one. -/
theorem C8_counterexample :
    upload_file (cpsOf "notes.txt") none [97, 11, 98] =
      UploadResult.success (cpsOf "notes.txt") "utf-8" (UploadData.lines [[97], [98]]) ∧
    universalSplit [97, 11, 98] = [[97, 11, 98]] ∧
    ([[97], [98]] : List (List Nat)) ≠ [[97, 11, 98]] := by
  refine ⟨rfl, rfl, by decide⟩

/-- C8 amended: for every decoded text and file name not ending in .csv
the materializer emits exactly the Python splitlines of the text, in
order and without terminators; those boundaries extend the universal
newlines with vertical tab, form feed, the separator controls, next line
and the Unicode line and paragraph separators, as the two concrete
splits show. -/
theorem C8_amended_python_splitlines (filename : List Nat) (guess : Option String)
    (bs content : List Nat) (enc : String)
    (hread : read_file_content guess bs = .ok (content, enc))
    (hnot : pyEndsWith filename (cpsOf ".csv") = false) :
    upload_file filename guess bs =
      UploadResult.success filename enc (UploadData.lines (pySplitlines content)) ∧
    pySplitlines (cpsOf "hello\nworld") = [cpsOf "hello", cpsOf "world"] ∧
    pySplitlines [97, 11, 98] = [[97], [98]] := by
  refine ⟨?_, rfl, rfl⟩
  unfold upload_file
  rw [hread]
  show (if pyEndsWith filename (cpsOf ".csv") = true then
      match pdReadCsv content with
      | Except.error msg => UploadResult.errorBody 500 ("An unexpected error occurred: " ++ msg)
      | Except.ok recs => UploadResult.success filename enc (UploadData.records recs)
    else UploadResult.success filename enc (UploadData.lines (pySplitlines content))) = _
  rw [if_neg (by rw [hnot]; simp)]

/-- C8 amended witness on the hello world example. -/
theorem C8_amended_witness :
    read_file_content none (cpsOf "hello\nworld") = .ok (cpsOf "hello\nworld", "utf-8") ∧
    pyEndsWith (cpsOf "notes.txt") (cpsOf ".csv") = false ∧
    upload_file (cpsOf "notes.txt") none (cpsOf "hello\nworld") =
      UploadResult.success (cpsOf "notes.txt") "utf-8"
        (UploadData.lines (pySplitlines (cpsOf "hello\nworld"))) ∧
    pySplitlines (cpsOf "hello\nworld") = [cpsOf "hello", cpsOf "world"] :=
  ⟨rfl, by decide,
    (C8_amended_python_splitlines (cpsOf "notes.txt") none (cpsOf "hello\nworld")
      (cpsOf "hello\nworld") "utf-8" rfl (by decide)).1,
    (C8_amended_python_splitlines (cpsOf "notes.txt") none (cpsOf "hello\nworld")
      (cpsOf "hello\nworld") "utf-8" rfl (by decide)).2.1⟩

/-- C9: the .csv branch selection is a case sensitive suffix check; a
file name ending in the uppercase .CSV and not in .csv is not treated as
tabular and yields the plain line sequence. -/
theorem C9_suffix_case_sensitive (filename : List Nat) (guess : Option String)
    (bs content : List Nat) (enc : String)
    (hread : read_file_content guess bs = .ok (content, enc))
    (_hupper : pyEndsWith filename (cpsOf ".CSV") = true)
    (hlower : pyEndsWith filename (cpsOf ".csv") = false) :
    upload_file filename guess bs =
      UploadResult.success filename enc (UploadData.lines (pySplitlines content)) := by
  unfold upload_file
  rw [hread]
  show (if pyEndsWith filename (cpsOf ".csv") = true then
      match pdReadCsv content with
      | Except.error msg => UploadResult.errorBody 500 ("An unexpected error occurred: " ++ msg)
      | Except.ok recs => UploadResult.success filename enc (UploadData.records recs)
    else UploadResult.success filename enc (UploadData.lines (pySplitlines content))) = _
  rw [if_neg (by rw [hlower]; simp)]

/-- C9 witness: FILE.CSV with tabular looking content still comes back as
plain lines. -/
theorem C9_witness :
    read_file_content none (cpsOf "a,b\n1,2") = .ok (cpsOf "a,b\n1,2", "utf-8") ∧
    pyEndsWith (cpsOf "FILE.CSV") (cpsOf ".CSV") = true ∧
    pyEndsWith (cpsOf "FILE.CSV") (cpsOf ".csv") = false ∧
    upload_file (cpsOf "FILE.CSV") none (cpsOf "a,b\n1,2") =
      UploadResult.success (cpsOf "FILE.CSV") "utf-8"
        (UploadData.lines (pySplitlines (cpsOf "a,b\n1,2"))) :=
  ⟨rfl, by decide, by decide,
    C9_suffix_case_sensitive (cpsOf "FILE.CSV") none (cpsOf "a,b\n1,2") (cpsOf "a,b\n1,2")
      "utf-8" rfl (by decide) (by decide)⟩

/-- C10: for every detector guess outside the fixed fallback list, if the
buffer decodes under the guess then the resolver reports the guess as the
encoding, with no canonicalization, even when utf-8 would also decode
the buffer: the guess sits first in the candidate list. -/
theorem C10_guess_reported_verbatim (g : String) (bs t : List Nat)
    (hnf : g ∉ fallbackEncodings) (hok : pyDecode g bs = .ok t) :
    read_file_content (some g) bs = .ok (t, g) := by
  have hloop : decodeLoop bs (buildCandidates (some g)) = Except.ok (some (t, g)) := by
    rw [buildCandidates_some_not hnf]
    show (match pyDecode g bs with
      | DecodeOutcome.ok u => Except.ok (some (u, g))
      | DecodeOutcome.decodeError => decodeLoop bs fallbackEncodings
      | DecodeOutcome.lookupError => Except.error (PyErr.lookupErr g)) =
      Except.ok (some (t, g))
    rw [hok]
  unfold read_file_content
  rw [hloop]

/-- C10 witness on a pure ascii buffer with an ascii guess: the buffer
also decodes under utf-8 yet the reported name is ascii. -/
theorem C10_witness :
    ("ascii" ∉ fallbackEncodings) ∧
    pyDecode "ascii" [104, 105] = .ok [104, 105] ∧
    utf8Decode [104, 105] = some [104, 105] ∧
    read_file_content (some "ascii") [104, 105] = .ok ([104, 105], "ascii") :=
  ⟨by decide, by decide, by decide,
    C10_guess_reported_verbatim "ascii" [104, 105] [104, 105] (by decide) (by decide)⟩
